import Mathlib

/-!
# Verification of the in-memory / file-backed persistence components

Shallow embedding of `MemoryPersistence` (part_000), `FilePersistence.go`
and `IdentifiableFilePersistence.go` from pip-services-data-go.

Modelling conventions:
* Go `error` values become `Option String` (`none` = nil error).
* A nil slice is distinguished from an empty one with `Option (List V)`.
* Method bodies that can panic, block forever on the instance mutex, or
  return normally produce an `Outcome`.
* The instance `sync.RWMutex` is modelled by a boolean field recording
  whether the calling goroutine already holds the write lock: in a
  single-goroutine execution `Lock`/`RLock` succeed immediately when the
  write lock is free, and `RLock` while the same goroutine holds the write
  lock blocks forever (Go RWMutex is not reentrant), i.e. deadlocks.
* The external collaborators (logger, JSON conversion, reflection, the
  JSON file persister) are out of scope of the repository; they are
  modelled abstractly, keeping exactly the behavior the store depends on.
-/

namespace PipServicesData

/-- A Go `error` result: `none` models a nil error. -/
abbrev GoErr := Option String

/-- Result of executing a method body: normal return, runtime panic, or
blocking forever on the instance lock (self-deadlock). -/
inductive Outcome (α : Type) where
  | ok : α → Outcome α
  | panic : String → Outcome α
  | deadlock : Outcome α
  deriving Repr

/-- The normal-return projection of an `Outcome`. -/
def Outcome.toOption {α : Type} : Outcome α → Option α
  | .ok a => some a
  | _ => none

/-- `ILoader.Load(correlationId) ([]interface{}, error)`; a nil items slice
is modelled as `none`, a non-nil slice as `some` of its contents. -/
abbrev Loader (V : Type) := String → Option (List V) × GoErr

/-- `ISaver.Save(correlationId, items) error`. -/
abbrev Saver (V : Type) := String → List V → GoErr

/-- Model of the external conversion collaborators used by
`MemoryPersistence.load`: `convert.MapConverter.ToNullableMap` (item to a
nullable map of type `M`), `json.Marshal` (map to JSON bytes of type `J`,
or an error), the zero value that `reflect.New` produces for a prototype
descriptor of type `P`, and `json.Unmarshal` of JSON bytes into a fresh
value of the prototype type (`none` models an unmarshal error, which in the
source is ignored and leaves the fresh value at its zero value). -/
structure ConvModel (V M J P : Type) where
  toNullableMap : V → M
  marshal : M → Except String J
  zero : P → V
  unmarshal : J → P → Option V

/-- The `MemoryPersistence` struct (part_000 lines 55-63). `_prototype` is a
`reflect.Type`, nilable, hence `Option P`; `_loader`/`_saver` are nilable
interface values; `_lockMutex` records whether the calling goroutine holds
the write lock of the instance RWMutex. The `_logger` field only receives
trace messages and has no observable state, so it is omitted. -/
structure MemoryPersistence (V P : Type) where
  _items : List V
  _loader : Option (Loader V)
  _saver : Option (Saver V)
  _opened : Bool
  _prototype : Option P
  _lockMutex : Bool

variable {V M J P : Type}

/-- `NewEmptyMemoryPersistence` (part_000 lines 68-77): returns nil when the
prototype is nil, otherwise a zero-valued struct with `_prototype` assigned
and an empty items slice. -/
def NewEmptyMemoryPersistence (prototype : Option P) : Option (MemoryPersistence V P) :=
  match prototype with
  | none => none
  | some p =>
    some { _items := [], _loader := none, _saver := none,
           _opened := false, _prototype := some p, _lockMutex := false }

/-- `NewMemoryPersistence` (part_000 lines 87-97): returns nil when the
prototype is nil, otherwise assigns `_items`, `_loader`, `_saver` and the
logger. The source never assigns `_prototype`, so it keeps the zero value
of `reflect.Type`, which is nil. -/
def NewMemoryPersistence (prototype : Option P) (loader : Option (Loader V))
    (saver : Option (Saver V)) : Option (MemoryPersistence V P) :=
  match prototype with
  | none => none
  | some _ =>
    some { _items := [], _loader := loader, _saver := saver,
           _opened := false, _prototype := none, _lockMutex := false }

/-- `IsOpen` (part_000 lines 109-111). -/
def IsOpen (c : MemoryPersistence V P) : Bool :=
  c._opened

/-- One item's conversion inside `load` (part_000 lines 136-145):
`ToNullableMap`, then `json.Marshal` (a marshal error panics), then
`reflect.New(c._prototype)` (which panics when the prototype is nil), then
`json.Unmarshal` whose error is ignored, so a failed unmarshal leaves the
freshly allocated zero value in place. -/
def convertOne (cm : ConvModel V M J P) (proto : Option P) (v : V) : Outcome V :=
  match cm.marshal (cm.toNullableMap v) with
  | .error _ => .panic "MemoryPersistence.Load Error cannot convert from Json to any type"
  | .ok j =>
    match proto with
    | none => .panic "reflect: New(nil)"
    | some p =>
      match cm.unmarshal j p with
      | some r => .ok r
      | none => .ok (cm.zero p)

/-- The conversion loop of `load` over all loaded items, propagating a
panic from any item. -/
def convertAll (cm : ConvModel V M J P) (proto : Option P) : List V → Outcome (List V)
  | [] => .ok []
  | v :: rest =>
    match convertOne cm proto v with
    | .ok r =>
      match convertAll cm proto rest with
      | .ok rs => .ok (r :: rs)
      | .panic msg => .panic msg
      | .deadlock => .deadlock
    | .panic msg => .panic msg
    | .deadlock => .deadlock

/-- `load` (part_000 lines 128-150): nil loader is a no-op success; a loader
error is returned with the collection untouched; a nil items slice with a
nil error is also a no-op success; otherwise the collection is replaced by
the converted items and nil is returned. -/
def load (cm : ConvModel V M J P) (cid : String) (c : MemoryPersistence V P) :
    Outcome (GoErr × MemoryPersistence V P) :=
  match c._loader with
  | none => .ok (none, c)
  | some ldr =>
    match (ldr cid).2 with
    | some e => .ok (some e, c)
    | none =>
      match (ldr cid).1 with
      | none => .ok (none, c)
      | some items =>
        match convertAll cm c._prototype items with
        | .ok newItems => .ok (none, { c with _items := newItems })
        | .panic msg => .panic msg
        | .deadlock => .deadlock

/-- `Open` (part_000 lines 118-126): acquires the write lock, calls `load`,
sets `_opened` only when `load` returned a nil error, releases the lock
(deferred unlock) and returns the error. -/
def Open (cm : ConvModel V M J P) (cid : String) (c : MemoryPersistence V P) :
    Outcome (GoErr × MemoryPersistence V P) :=
  if c._lockMutex then .deadlock else
  let c1 : MemoryPersistence V P := { c with _lockMutex := true }
  match load cm cid c1 with
  | .ok (err, c2) =>
    let c3 : MemoryPersistence V P :=
      match err with
      | none => { c2 with _opened := true }
      | some _ => c2
    .ok (err, { c3 with _lockMutex := false })
  | .panic msg => .panic msg
  | .deadlock => .deadlock

/-- `Save` (part_000 lines 166-180): acquires the read lock — which blocks
forever when the calling goroutine already holds the write lock — then
returns nil if no saver is configured, otherwise the saver's result on the
current items; no field of the receiver is assigned. -/
def Save (cid : String) (c : MemoryPersistence V P) :
    Outcome (GoErr × MemoryPersistence V P) :=
  if c._lockMutex then .deadlock else
  match c._saver with
  | none => .ok (none, c)
  | some sv => .ok (sv cid c._items, c)

/-- The error value `Save` produces when it runs to completion: nil without
a saver, otherwise the saver's result on the current collection. -/
def saveErr (cid : String) (c : MemoryPersistence V P) : GoErr :=
  match c._saver with
  | none => none
  | some sv => sv cid c._items

/-- `Close` (part_000 lines 156-160): calls `Save`, then sets `_opened` to
false regardless of the error, and returns `Save`'s error. -/
def Close (cid : String) (c : MemoryPersistence V P) :
    Outcome (GoErr × MemoryPersistence V P) :=
  match Save cid c with
  | .ok (err, c1) => .ok (err, { c1 with _opened := false })
  | .panic msg => .panic msg
  | .deadlock => .deadlock

/-- `Clear` (part_000 lines 185-192): acquires the write lock, replaces the
collection with an empty slice, and returns `c.Save(correlationId)` — which
is evaluated before the deferred unlock runs, i.e. while the write lock is
still held. -/
def Clear (cid : String) (c : MemoryPersistence V P) :
    Outcome (GoErr × MemoryPersistence V P) :=
  if c._lockMutex then .deadlock else
  let c1 : MemoryPersistence V P := { c with _lockMutex := true, _items := [] }
  match Save cid c1 with
  | .ok (err, c2) => .ok (err, { c2 with _lockMutex := false })
  | .panic msg => .panic msg
  | .deadlock => .deadlock

/-! ## File-backed persistence (FilePersistence.go, IdentifiableFilePersistence.go) -/

/-- `config.ConfigParams` (external commons library): modelled as key-value
pairs with lookup. -/
abbrev ConfigParams := List (String × String)

/-- Modelled from the spec: the `JsonFilePersister` collaborator (its
source file is not under src/). The spec specifies it only at its
interface boundary: it is constructed from a file path, and an empty path
is treated as no-op persistence. -/
structure JsonFilePersister where
  path : String
  deriving Repr, DecidableEq

/-- Modelled from the spec: `NewJsonFilePersister` builds a persister for
the given file path. -/
def NewJsonFilePersister (path : String) : JsonFilePersister :=
  { path := path }

/-- The Go zero value of `JsonFilePersister`: every field zero, so an empty
path. A caller that has no persister to supply passes this value, since
the constructor parameter is a value type that cannot be omitted. -/
def JsonFilePersister.zeroValue : JsonFilePersister :=
  { path := "" }

/-- Modelled from the spec: `JsonFilePersister.Configure` reads the `path`
configuration parameter (spec section 6: "path (file location, forwarded to
the file persister)"). -/
def JsonFilePersister.Configure (p : JsonFilePersister) (conf : ConfigParams) :
    JsonFilePersister :=
  { p with path := (conf.lookup "path").getD p.path }

/-- The guard `&persister == nil` in `NewFilePersistence` and
`NewIdentifiableFilePersistence`: in Go the address of a value parameter is
never nil, so this guard is constantly false and the fallback branch that
builds `NewJsonFilePersister("")` is unreachable. -/
def addrOfParamIsNil : Bool := false

/-- The `FilePersistence` struct (FilePersistence.go lines 59-62): embeds
`MemoryPersistence` and holds the persister. -/
structure FilePersistence (V P : Type) extends MemoryPersistence V P where
  _persister : JsonFilePersister

/-- `NewFilePersistence` (FilePersistence.go lines 68-76): substitutes an
empty-path persister when the (always false) nil-address guard fires, stores
the persister, and builds the embedded `MemoryPersistence` with the persister
as both loader and saver, dereferencing the result — a nil result (nil
prototype) is a nil-pointer dereference panic. `asLoader`/`asSaver` model
the persister's `ILoader`/`ISaver` methods, which live outside src/. -/
def NewFilePersistence (asLoader : JsonFilePersister → Loader V)
    (asSaver : JsonFilePersister → Saver V)
    (prototype : Option P) (persister : JsonFilePersister) :
    Outcome (FilePersistence V P) :=
  let persister := if addrOfParamIsNil then NewJsonFilePersister "" else persister
  match NewMemoryPersistence prototype (some (asLoader persister)) (some (asSaver persister)) with
  | none => .panic "runtime error: invalid memory address or nil pointer dereference"
  | some mem => .ok { toMemoryPersistence := mem, _persister := persister }

/-- `FilePersistence.Configure` (FilePersistence.go lines 80-82): forwards
the configuration to the persister. -/
def FilePersistence.ConfigureImpl (c : FilePersistence V P) (conf : ConfigParams) :
    FilePersistence V P :=
  { c with _persister := c._persister.Configure conf }

/-- Modelled from the spec: the Identifiable Record Store layers id-based
CRUD on the Record Store (spec section 4.2); its source file is not under
src/. Only its construction surface is needed here: it wraps the underlying
`MemoryPersistence` built from the same prototype, loader and saver. -/
structure IdentifiableMemoryPersistence (V P : Type) extends MemoryPersistence V P

/-- Modelled from the spec: `NewIdentifiableMemoryPersistence` constructs
the wrapped Record Store from the prototype, loader and saver. -/
def NewIdentifiableMemoryPersistence (prototype : Option P) (loader : Option (Loader V))
    (saver : Option (Saver V)) : Option (IdentifiableMemoryPersistence V P) :=
  (NewMemoryPersistence prototype loader saver).map IdentifiableMemoryPersistence.mk

/-- The `IdentifiableFilePersistence` struct
(IdentifiableFilePersistence.go lines 76-79). -/
structure IdentifiableFilePersistence (V P : Type) extends IdentifiableMemoryPersistence V P where
  _persister : JsonFilePersister

/-- `NewIdentifiableFilePersistence` (IdentifiableFilePersistence.go lines
85-93): same shape as `NewFilePersistence`, building the embedded
`IdentifiableMemoryPersistence` and storing the persister. -/
def NewIdentifiableFilePersistence (asLoader : JsonFilePersister → Loader V)
    (asSaver : JsonFilePersister → Saver V)
    (prototype : Option P) (persister : JsonFilePersister) :
    Outcome (IdentifiableFilePersistence V P) :=
  let persister := if addrOfParamIsNil then NewJsonFilePersister "" else persister
  match NewIdentifiableMemoryPersistence prototype
      (some (asLoader persister)) (some (asSaver persister)) with
  | none => .panic "runtime error: invalid memory address or nil pointer dereference"
  | some mem => .ok { toIdentifiableMemoryPersistence := mem, _persister := persister }

/-- `IdentifiableFilePersistence.Configure` (IdentifiableFilePersistence.go
lines 97-100):

    c.Configure(config)
    c._persister.Configure(config)

In Go, the method call `c.Configure` on the outer struct resolves to this
very method (method sets of embedded types are shadowed; there is no
dynamic dispatch), so the first statement is an unconditional recursive
self-call and the method never terminates (it overflows the stack at
runtime). The embedding makes the recursion explicit with a fuel
(stack-depth) bound; `none` models failure to return within the given
depth. -/
def IdentifiableFilePersistence.ConfigureFuel :
    Nat → ConfigParams → IdentifiableFilePersistence V P →
      Option (IdentifiableFilePersistence V P)
  | 0, _, _ => none
  | fuel + 1, conf, c =>
    match IdentifiableFilePersistence.ConfigureFuel fuel conf c with
    | none => none
    | some c1 => some { c1 with _persister := c1._persister.Configure conf }

/-! ## Theorems for the claims -/

/-- C1: if `Open` is called and the loader returns an error, the store
remains closed (`IsOpen` stays false), the error is returned to the caller,
and the in-memory collection — indeed the whole store state — is exactly
what it was before `Open` was called. -/
theorem open_loader_error_keeps_store_closed
    (cm : ConvModel V M J P) (cid : String) (c : MemoryPersistence V P)
    (ldr : Loader V) (e : String)
    (hlock : c._lockMutex = false)
    (hld : c._loader = some ldr) (herr : (ldr cid).2 = some e)
    (hop : IsOpen c = false) :
    Open cm cid c = .ok (some e, c) ∧ IsOpen c = false := by
  refine ⟨?_, hop⟩
  obtain ⟨it, ld, sv, op, pr, lk⟩ := c
  simp only [IsOpen] at hop
  simp only at hlock hld
  subst hlock hld
  simp [Open, load, herr]

/-- Witness for C1 at a concrete store whose loader fails with "io error". -/
theorem open_loader_error_keeps_store_closed_witness :
    Open (V := Nat) (M := Nat) (J := Nat) (P := Nat)
        ⟨fun v => v, fun m => .ok m, fun _ => 0, fun j _ => some j⟩ "cid"
        ⟨[3], some (fun _ => (none, some "io error")), none, false, some 0, false⟩
      = .ok (some "io error",
          ⟨[3], some (fun _ => (none, some "io error")), none, false, some 0, false⟩) ∧
    IsOpen (V := Nat) (P := Nat)
        ⟨[3], some (fun _ => (none, some "io error")), none, false, some 0, false⟩ = false :=
  open_loader_error_keeps_store_closed _ "cid" _ (fun _ => (none, some "io error")) "io error"
    rfl rfl rfl rfl

/-- C5: `Save` passes exactly the full current in-memory collection to the
configured saver (its argument is `c._items`, the current collection) and
leaves the store state unchanged; when no saver is configured, `Save`
returns a nil error without invoking anything and without changing state. -/
theorem save_passes_current_collection
    (cid : String) (c : MemoryPersistence V P)
    (hlock : c._lockMutex = false) :
    (∀ sv, c._saver = some sv → Save cid c = .ok (sv cid c._items, c)) ∧
    (c._saver = none → Save cid c = .ok (none, c)) := by
  constructor
  · intro sv hsv
    simp [Save, hlock, hsv]
  · intro hsv
    simp [Save, hlock, hsv]

/-- Witness for C5 on a store with a saver and on one without. -/
theorem save_passes_current_collection_witness :
    Save (V := Nat) (P := Nat) "cid"
        ⟨[1, 2], none, some (fun _ items => some (toString items.length)), false, none, false⟩
      = .ok (some "2",
          ⟨[1, 2], none, some (fun _ items => some (toString items.length)), false, none, false⟩) ∧
    Save (V := Nat) (P := Nat) "cid" ⟨[1, 2], none, none, false, none, false⟩
      = .ok (none, ⟨[1, 2], none, none, false, none, false⟩) :=
  ⟨(save_passes_current_collection "cid"
      ⟨[1, 2], none, some (fun _ items => some (toString items.length)), false, none, false⟩
      rfl).1 _ rfl,
   (save_passes_current_collection "cid"
      ⟨[1, 2], none, none, false, none, false⟩ rfl).2 rfl⟩

/-- C6: if `Open` is called and the loader returns neither items nor an
error (or no loader is configured at all, the empty/non-existent medium
case), `Open` returns a nil error, the in-memory collection is kept
unchanged, and `IsOpen` becomes true. -/
theorem open_nothing_to_load_marks_open
    (cm : ConvModel V M J P) (cid : String) (c : MemoryPersistence V P)
    (hlock : c._lockMutex = false)
    (hld : c._loader = none ∨ ∃ ldr, c._loader = some ldr ∧ ldr cid = (none, none)) :
    Open cm cid c = .ok (none, { c with _opened := true }) ∧
    IsOpen (V := V) (P := P) { c with _opened := true } = true := by
  refine ⟨?_, rfl⟩
  obtain ⟨it, ld, sv, op, pr, lk⟩ := c
  simp only at hlock
  subst hlock
  rcases hld with hld | ⟨ldr, hld, hres⟩ <;> simp only at hld <;> subst hld
  · simp [Open, load]
  · simp [Open, load, hres]

/-- Witness for C6 on a store whose loader reports nothing to load. -/
theorem open_nothing_to_load_marks_open_witness :
    Open (V := Nat) (M := Nat) (J := Nat) (P := Nat)
        ⟨fun v => v, fun m => .ok m, fun _ => 0, fun j _ => some j⟩ "cid"
        ⟨[9], some (fun _ => (none, none)), none, false, some 0, false⟩
      = .ok (none, ⟨[9], some (fun _ => (none, none)), none, true, some 0, false⟩) :=
  (open_nothing_to_load_marks_open _ "cid"
      ⟨[9], some (fun _ => (none, none)), none, false, some 0, false⟩
      rfl (Or.inr ⟨fun _ => (none, none), rfl, rfl⟩)).1

/-- C7: `Close` invokes `Save` and then marks the store closed (`IsOpen`
becomes false) regardless of whether `Save` succeeded or failed, returning
`Save`'s error to the caller. -/
theorem close_saves_then_marks_closed
    (cid : String) (c : MemoryPersistence V P)
    (hlock : c._lockMutex = false) :
    Close cid c = .ok (saveErr cid c, { c with _opened := false }) ∧
    IsOpen (V := V) (P := P) { c with _opened := false } = false := by
  refine ⟨?_, rfl⟩
  cases hsv : c._saver <;> simp [Close, Save, saveErr, hlock, hsv]

/-- Witness for C7 on a store whose saver fails: the error is returned and
the store is closed anyway. -/
theorem close_saves_then_marks_closed_witness :
    Close (V := Nat) (P := Nat) "cid"
        ⟨[5], none, some (fun _ _ => some "disk full"), true, none, false⟩
      = .ok (some "disk full", ⟨[5], none, some (fun _ _ => some "disk full"), false, none, false⟩) :=
  (close_saves_then_marks_closed "cid"
      ⟨[5], none, some (fun _ _ => some "disk full"), true, none, false⟩ rfl).1

/-- C4: the claim fails on the code. `Clear` acquires the write lock and
then, while still holding it (the deferred unlock only runs after the
return value is computed), calls `Save`, which acquires the read lock of
the same non-reentrant `sync.RWMutex`. The read lock blocks until the
writer releases, which the calling goroutine never does, so every call to
`Clear` deadlocks and never returns `Save`'s error. -/
theorem clear_always_deadlocks (cid : String) (c : MemoryPersistence V P) :
    Clear cid c = Outcome.deadlock := by
  by_cases hl : c._lockMutex
  · simp [Clear, hl]
  · simp [Clear, Save, hl]

/-- C10: the mutation-plus-triggered-Save sequence of `Clear` never
completes: there is no state and error such that `Clear` returns normally,
because `Save` self-deadlocks on the store's own reader/writer lock while
`Clear` still holds it exclusively. -/
theorem clear_triggered_save_never_completes (cid : String) (c : MemoryPersistence V P) :
    (Clear cid c).toOption = none := by
  by_cases hl : c._lockMutex <;> simp [Clear, Save, Outcome.toOption, hl]

/-- C3: the claim fails on the code. `IdentifiableFilePersistence.Configure`
begins with `c.Configure(config)`, an unconditional call to itself, so for
every stack depth (fuel), configuration and instance it fails to return,
and in particular never forwards the configuration to the persister. -/
theorem identifiableFilePersistence_configure_diverges
    (fuel : Nat) (conf : ConfigParams) (c : IdentifiableFilePersistence V P) :
    IdentifiableFilePersistence.ConfigureFuel fuel conf c = none := by
  induction fuel with
  | zero => rfl
  | succ n ih => simp [IdentifiableFilePersistence.ConfigureFuel, ih]

/-- C9: constructing a File-Backed Store or an Identifiable File-Backed
Store with no persister supplied — the constructor parameter is a Go value
type, so an absent persister is the zero value, whose path is empty —
yields a store whose persister equals one constructed with the empty path,
which the collaborator treats as no-op persistence. -/
theorem construct_without_persister_uses_empty_path
    (asLoader : JsonFilePersister → Loader V) (asSaver : JsonFilePersister → Saver V)
    (p : P) :
    (NewFilePersistence asLoader asSaver (some p) JsonFilePersister.zeroValue).toOption.map
        (fun fp => fp._persister) = some (NewJsonFilePersister "") ∧
    (NewIdentifiableFilePersistence asLoader asSaver (some p)
          JsonFilePersister.zeroValue).toOption.map
        (fun ifp => ifp._persister) = some (NewJsonFilePersister "") :=
  ⟨rfl, rfl⟩

/-- C2: the claim fails on the code. `NewMemoryPersistence` checks that the
prototype is non-nil but never assigns it to the instance, so the returned
store has a nil `_prototype`; a subsequent `Open` whose loader yields an
item that marshals successfully then panics in `reflect.New(nil)` instead
of re-materializing the item. By contrast, `NewEmptyMemoryPersistence`
does record the prototype. -/
theorem newMemoryPersistence_drops_prototype
    (cm : ConvModel V M J P) (cid : String) (p : P) (v : V) (j : J)
    (sv : Option (Saver V))
    (hm : cm.marshal (cm.toNullableMap v) = Except.ok j) :
    (NewMemoryPersistence (V := V) (some p) (some fun _ => (some [v], none)) sv).map
        (fun st => (st._prototype, Open cm cid st))
      = some (none, .panic "reflect: New(nil)") ∧
    (NewEmptyMemoryPersistence (V := V) (some p)).map (fun st => st._prototype)
      = some (some p) := by
  constructor
  · simp [NewMemoryPersistence, Open, load, convertAll, convertOne, hm]
  · rfl

/-- Witness for C2: a concrete store built by `NewMemoryPersistence` whose
loader yields the item 7; its prototype is nil and `Open` panics. -/
theorem newMemoryPersistence_drops_prototype_witness :
    (NewMemoryPersistence (V := Nat) (P := Nat) (some 1)
          (some fun _ => (some [7], none)) none).map
        (fun st =>
          (st._prototype,
            Open (M := Nat) (J := Nat)
              ⟨fun v => v, fun m => .ok m, fun _ => 0, fun j _ => some j⟩ "cid" st))
      = some (none, .panic "reflect: New(nil)") ∧
    (NewEmptyMemoryPersistence (V := Nat) (P := Nat) (some 1)).map
        (fun st => st._prototype) = some (some 1) :=
  newMemoryPersistence_drops_prototype
    ⟨fun v => v, fun m => .ok m, fun _ => 0, fun j _ => some j⟩ "cid" 1 7 7 none rfl

/-- A conversion model over `Nat` items in which every item marshals
successfully but no JSON value can be unmarshaled into the record type, and
the record type zero value is 0. -/
def cmUnconvertible : ConvModel Nat Nat Nat Unit :=
  { toNullableMap := fun v => v, marshal := fun m => .ok m,
    zero := fun _ => 0, unmarshal := fun _ _ => none }

/-- A conversion model over `Nat` items in which marshaling always fails. -/
def cmMarshalFail : ConvModel Nat Nat Nat Unit :=
  { toNullableMap := fun v => v, marshal := fun _ => .error "bad",
    zero := fun _ => 0, unmarshal := fun _ _ => none }

/-- A concrete closed store whose loader yields the single raw item 7. -/
def stSingleItem : MemoryPersistence Nat Unit :=
  { _items := [], _loader := some fun _ => (some [7], none), _saver := none,
    _opened := false, _prototype := some (), _lockMutex := false }

/-- C8 counterexample: the claim, as stated, is false on the code. At a
concrete input where the loaded raw item 7 cannot be mapped into the
configured record type (`json.Unmarshal` fails), `Open`'s load step is not
fatal: it completes normally with a nil error, the store opened, and the
unconvertible item silently replaced by the record type's zero value 0. -/
theorem load_unconvertible_item_completes_with_default :
    Open cmUnconvertible "cid" stSingleItem
      = .ok (none, { stSingleItem with _items := [0], _opened := true }) := rfl

/-- C8 amended: during `Open`'s load step, a *marshal* failure on a loaded
item is fatal (panics); but an item that marshals successfully and then
cannot be unmarshaled into the configured record type is silently replaced
by the record type's zero value, and the load completes normally with a nil
error and the store opened. -/
theorem load_conversion_marshal_fatal_unmarshal_defaulted
    (cm : ConvModel V M J P) (cid : String) (c : MemoryPersistence V P)
    (ldr : Loader V) (v : V) (p : P)
    (hlock : c._lockMutex = false)
    (hld : c._loader = some ldr) (hldr : ldr cid = (some [v], none))
    (hp : c._prototype = some p) :
    ((∃ e, cm.marshal (cm.toNullableMap v) = .error e) →
        Open cm cid c
          = .panic "MemoryPersistence.Load Error cannot convert from Json to any type") ∧
    (∀ j, cm.marshal (cm.toNullableMap v) = .ok j → cm.unmarshal j p = none →
        Open cm cid c = .ok (none, { c with _items := [cm.zero p], _opened := true })) := by
  obtain ⟨it, ld, sv, op, pr, lk⟩ := c
  simp only at hlock hld hp
  subst hlock hld hp
  constructor
  · rintro ⟨e, he⟩
    simp [Open, load, convertAll, convertOne, hldr, he]
  · intro j hj hu
    simp [Open, load, convertAll, convertOne, hldr, hj, hu]

/-- Witness for the C8 amended theorem: with a failing marshal the load
panics; with a failing unmarshal the item is defaulted to 0 and load
completes. -/
theorem load_conversion_marshal_fatal_unmarshal_defaulted_witness :
    Open cmMarshalFail "cid" stSingleItem
      = .panic "MemoryPersistence.Load Error cannot convert from Json to any type" ∧
    Open cmUnconvertible "cid" stSingleItem
      = .ok (none, { stSingleItem with _items := [0], _opened := true }) :=
  ⟨(load_conversion_marshal_fatal_unmarshal_defaulted cmMarshalFail "cid" stSingleItem
      (fun _ => (some [7], none)) 7 () rfl rfl rfl rfl).1 ⟨"bad", rfl⟩,
   (load_conversion_marshal_fatal_unmarshal_defaulted cmUnconvertible "cid" stSingleItem
      (fun _ => (some [7], none)) 7 () rfl rfl rfl rfl).2 7 rfl rfl⟩

end PipServicesData
